import Mathlib

/-!
Verification of the chronos time-conversion core (`src/ffi/chronos_ffi.c`).

The C file wraps the POSIX functions `gmtime_r`, `timegm`, `localtime_r` and
`mktime`.  Those functions are not part of the repository's sources, so their
behaviour is modelled here from the specification (proleptic Gregorian
calendar decomposition and composition, POSIX carry-over normalization); the
wrappers themselves (`chronos_now`, `chronos_to_utc`, `chronos_to_local`,
`chronos_from_utc`, `chronos_get_timezone_offset`) are embedded directly from
the C code, including their integer casts and their error branches.
All arithmetic is over `Int`; `/` and `%` on `Int` are Euclidean
(floor division for the positive literal divisors used here), matching the
mathematical day-count arithmetic the platform functions implement.
-/

/-- Modelled from the spec: the proleptic Gregorian decomposition of a day
count since 1970-01-01 into `(year, month, day)`, the calendar algorithm that
`src/ffi/chronos_ffi.c` delegates to the platform's `gmtime_r` (§4.2 of the
spec); the algorithm itself is not under `src/`. -/
def civilFromDays (z : Int) : Int × Int × Int :=
  let a := z + 719468
  let era := a / 146097
  let doe := a - era * 146097
  let yoe := (doe - doe / 1460 + doe / 36524 - doe / 146096) / 365
  let y := yoe + era * 400
  let doy := doe - (365 * yoe + yoe / 4 - yoe / 100)
  let mp := (5 * doy + 2) / 153
  let d := doy - (153 * mp + 2) / 5 + 1
  (if mp < 10 then y else y + 1, if mp < 10 then mp + 3 else mp - 9, d)

/-- Modelled from the spec: the proleptic Gregorian day count since
1970-01-01 of a civil date `(year, month, day)`, the inverse calendar
algorithm that `src/ffi/chronos_ffi.c` delegates to the platform's `timegm`
(§4.2 of the spec); the algorithm itself is not under `src/`. -/
def daysFromCivil (y m d : Int) : Int :=
  let yc := if m ≤ 2 then y - 1 else y
  let era := yc / 400
  let yoe := yc - era * 400
  let doy := (153 * (if m ≤ 2 then m + 9 else m - 3) + 2) / 5 + d - 1
  let doe := yoe * 365 + yoe / 4 - yoe / 100 + doy
  era * 146097 + doe - 719468

/-- The fields of the C `struct tm` that the chronos code reads and writes
(`tm_year` is years since 1900, `tm_mon` is 0-based). -/
structure Tm where
  tm_sec : Int
  tm_min : Int
  tm_hour : Int
  tm_mday : Int
  tm_mon : Int
  tm_year : Int
deriving DecidableEq, Repr

/-- Modelled from the spec: the civil fields the platform's `gmtime_r` stores
for a given timestamp — proleptic Gregorian date of the day count plus the
wall-clock decomposition of the second of the day (§4.2 of the spec). -/
def gmtimeSpec (t : Int) : Tm :=
  let sod := t % 86400
  match civilFromDays (t / 86400) with
  | (y, m, d) =>
    { tm_year := y - 1900, tm_mon := m - 1, tm_mday := d,
      tm_hour := sod / 3600, tm_min := sod % 3600 / 60, tm_sec := sod % 60 }

/-- Modelled from the spec: `gmtime_r` — per §4.2 the UTC decomposition
"by construction never fails for any representable `Instant`", so the
`Option` (the C `NULL` return) is always `some`. -/
def gmtime_r (t : Int) : Option Tm := some (gmtimeSpec t)

/-- Modelled from the spec: the platform's `timegm` — interprets a
`struct tm` as a UTC civil time and returns the epoch timestamp, with
out-of-range fields normalized by calendar carry-over arithmetic (§4.2 and
§9 of the spec). -/
def timegmSpec (tm : Tm) : Int :=
  let y := tm.tm_year + 1900 + tm.tm_mon / 12
  let m := tm.tm_mon % 12 + 1
  let days := daysFromCivil y m 1 + (tm.tm_mday - 1)
  days * 86400 + tm.tm_hour * 3600 + tm.tm_min * 60 + tm.tm_sec

/-- The nested tuple `chronos_ffi.c` returns for a date/time:
`(year : Int32, month day hour minute second : UInt8, nanosecond : UInt32)`.
Fields are `Int`/`Nat` with the C casts applied explicitly where they occur. -/
structure DateTimeTuple where
  year : Int
  month : Int
  day : Int
  hour : Int
  minute : Int
  second : Int
  nanosecond : Nat
deriving DecidableEq, Repr

/-- The C cast to `int32_t` (two's-complement wrap-around). -/
def int32Wrap (x : Int) : Int := (x + 2147483648) % 4294967296 - 2147483648

/-- The C cast to `uint8_t` (wrap-around modulo 256). -/
def uint8Wrap (x : Int) : Int := x % 256

/-- Embedded from `chronos_now` (src/ffi/chronos_ffi.c:36-48): the clock read,
parameterized by the outcome of the platform's `clock_gettime` call. -/
def chronos_now (clk : Option (Int × Nat)) : Except String (Int × Nat) :=
  match clk with
  | none => .error "clock_gettime failed"
  | some p => .ok p

/-- Embedded from `chronos_to_utc` (src/ffi/chronos_ffi.c:88-110): decompose
a timestamp with `gmtime_r`, cast the year to `int32_t` and the small fields
to `uint8_t`, and pass the nanosecond argument through unchanged. -/
def chronos_to_utc (seconds : Int) (nanos : Nat) : Except String DateTimeTuple :=
  match gmtime_r seconds with
  | none => .error "gmtime_r failed"
  | some tm =>
    .ok { year := int32Wrap (tm.tm_year + 1900), month := uint8Wrap (tm.tm_mon + 1),
          day := uint8Wrap tm.tm_mday, hour := uint8Wrap tm.tm_hour,
          minute := uint8Wrap tm.tm_min, second := uint8Wrap tm.tm_sec,
          nanosecond := nanos }

/-- Embedded from `chronos_to_local` (src/ffi/chronos_ffi.c:118-140):
identical to `chronos_to_utc` but decomposing with the platform's
`localtime_r`, taken as an external resolver parameter (spec §9). -/
def chronos_to_local (loc : Int → Option Tm) (seconds : Int) (nanos : Nat) :
    Except String DateTimeTuple :=
  match loc seconds with
  | none => .error "localtime_r failed"
  | some tm =>
    .ok { year := int32Wrap (tm.tm_year + 1900), month := uint8Wrap (tm.tm_mon + 1),
          day := uint8Wrap tm.tm_mday, hour := uint8Wrap tm.tm_hour,
          minute := uint8Wrap tm.tm_min, second := uint8Wrap tm.tm_sec,
          nanosecond := nanos }

/-- Embedded from `chronos_from_utc` (src/ffi/chronos_ffi.c:148-177): build a
`struct tm` from the caller's fields, convert with `timegm`, and treat the
result `-1` as an unconditional error (the C comment notes that `-1` can also
be the valid timestamp 1969-12-31T23:59:59Z). -/
def chronos_from_utc (year month day hour minute second : Int) (nanosecond : Nat) :
    Except String (Int × Nat) :=
  let tm : Tm := { tm_year := year - 1900, tm_mon := month - 1, tm_mday := day,
                   tm_hour := hour, tm_min := minute, tm_sec := second }
  let t := timegmSpec tm
  if t = -1 then .error "timegm failed"
  else .ok (t, nanosecond)

/-- Modelled from the spec: the platform's `localtime_r` for a zone of
constant UTC offset `c` seconds (the zone database is an external collaborator
per §1/§9; one call observes one fixed offset per §5). -/
def localtimeConst (c t : Int) : Option Tm := some (gmtimeSpec (t + c))

/-- Modelled from the spec: the platform's `mktime` for a zone of constant
UTC offset `c` seconds — interpret the fields as local civil time, i.e. the
UTC interpretation shifted back by the offset. -/
def mktimeConst (c : Int) (tm : Tm) : Int := timegmSpec tm - c

/-- Embedded from `chronos_get_timezone_offset` (src/ffi/chronos_ffi.c:186-209):
decompose `now` once with `localtime_r` and once with `gmtime_r`, run both
decompositions through `mktime`, and return the difference cast to `int32_t`. -/
def chronos_get_timezone_offset (c now : Int) : Except String Int :=
  match localtimeConst c now with
  | none => .error "localtime_r failed"
  | some local_tm =>
    match gmtime_r now with
    | none => .error "gmtime_r failed"
    | some utc_tm =>
      .ok (int32Wrap (mktimeConst c local_tm - mktimeConst c utc_tm))

/-- The specification's reference algorithm for the offset (§4.3, stated in
the spec's words for comparison with `chronos_get_timezone_offset`): decompose
the instant once as local and once as UTC civil fields, reinterpret each
decomposition as a UTC civil time, convert both back with §4.2's inverse, and
take the difference. -/
def offsetRefSpec (c now : Int) : Int :=
  timegmSpec (gmtimeSpec (now + c)) - timegmSpec (gmtimeSpec now)

/-- The round trip of the claims: forward conversion to UTC civil fields
followed by the inverse conversion on the resulting fields. -/
def roundTrip (seconds : Int) (nanos : Nat) : Except String (Int × Nat) :=
  match chronos_to_utc seconds nanos with
  | .error e => .error e
  | .ok dt => chronos_from_utc dt.year dt.month dt.day dt.hour dt.minute dt.second dt.nanosecond

/-- The civil year that the UTC decomposition assigns to a timestamp. -/
def yearOf (seconds : Int) : Int := (civilFromDays (seconds / 86400)).1

/-- Lower bound of the day-of-year correction in `civilFromDays`: the start of
the computed year of era does not exceed the day of era. -/
theorem doy_lower (E : Int) (h0 : 0 ≤ E) (h1 : E ≤ 146096) :
    365 * ((E - E/1460 + E/36524 - E/146096)/365)
      + ((E - E/1460 + E/36524 - E/146096)/365)/4
      - ((E - E/1460 + E/36524 - E/146096)/365)/100 ≤ E := by
  set y := (E - E/1460 + E/36524 - E/146096)/365 with hy
  have h365 : 365 * y ≤ E - E/1460 + E/36524 - E/146096 := by omega
  have hq4 : y/4 ≤ E/1460 := by omega
  have hcent : E/36524 ≤ y/100 + E/146096 + (E/1460 - y/4) := by omega
  omega

/-- Upper bound of the day-of-year correction in `civilFromDays`: the day of
era is at most 365 days past the start of the computed year of era. -/
theorem doy_upper (E : Int) (h0 : 0 ≤ E) (h1 : E ≤ 146096) :
    E - (365 * ((E - E/1460 + E/36524 - E/146096)/365)
         + ((E - E/1460 + E/36524 - E/146096)/365)/4
         - ((E - E/1460 + E/36524 - E/146096)/365)/100) ≤ 365 := by
  set y := (E - E/1460 + E/36524 - E/146096)/365 with hy
  have hA : E/1460 ≤ y/4 + 1 := by omega
  have hf : 25 * (y/100) ≤ y/4 := by omega
  have hg : 36500 * (y/100) ≤ E - E/1460 + E/36524 - E/146096 := by omega
  have hd4 : E/36524 ≤ 4 := by omega
  have hcd : E/1460 ≤ 25 * (E/36524) + 25 := by omega
  have hgd : y/100 ≤ E/36524 + 1 := by omega
  omega

/-- The Gregorian day composition inverts the day decomposition on every
integer day count. -/
theorem daysFromCivil_civilFromDays (z : Int) :
    daysFromCivil (civilFromDays z).1 (civilFromDays z).2.1 (civilFromDays z).2.2 = z := by
  simp only [civilFromDays, daysFromCivil]
  generalize hera : (z + 719468) / 146097 = era
  generalize hE : z + 719468 - era * 146097 = E
  have h0 : 0 ≤ E := by omega
  have h1 : E ≤ 146096 := by omega
  have hz : era * 146097 + E - 719468 = z := by omega
  rw [← hz]
  clear hera hE hz
  clear z
  have hlo := doy_lower E h0 h1
  have hhi := doy_upper E h0 h1
  set Y := (E - E/1460 + E/36524 - E/146096)/365 with hY
  have hYb : 0 ≤ Y ∧ Y ≤ 399 := by omega
  set D := E - (365 * Y + Y / 4 - Y / 100) with hD
  have hDb : 0 ≤ D ∧ D ≤ 365 := by omega
  set MP := (5 * D + 2) / 153 with hMP
  have hMPb : 0 ≤ MP ∧ MP ≤ 11 := by omega
  split_ifs with hc1 hc2 hc3
  · omega
  · have hk : (Y + era * 400) / 400 = era := by omega
    have hl : (Y + era * 400 - (Y + era * 400) / 400 * 400) / 4 = Y / 4 := by omega
    have hm : (Y + era * 400 - (Y + era * 400) / 400 * 400) / 100 = Y / 100 := by omega
    have hn : (153 * (MP + 3 - 3) + 2) / 5 = (153 * MP + 2) / 5 := by omega
    omega
  · have hk : (Y + era * 400 + 1 - 1) / 400 = era := by omega
    have hl : (Y + era * 400 + 1 - 1 - (Y + era * 400 + 1 - 1) / 400 * 400) / 4 = Y / 4 := by
      omega
    have hm : (Y + era * 400 + 1 - 1 - (Y + era * 400 + 1 - 1) / 400 * 400) / 100 = Y / 100 := by
      omega
    have hn : (153 * (MP - 9 + 9) + 2) / 5 = (153 * MP + 2) / 5 := by omega
    omega
  · omega

/-- The month and day produced by the Gregorian day decomposition lie in the
calendar ranges 1..12 and 1..31. -/
theorem civilFromDays_bounds (z : Int) :
    1 ≤ (civilFromDays z).2.1 ∧ (civilFromDays z).2.1 ≤ 12 ∧
    1 ≤ (civilFromDays z).2.2 ∧ (civilFromDays z).2.2 ≤ 31 := by
  simp only [civilFromDays]
  generalize hera : (z + 719468) / 146097 = era
  generalize hE : z + 719468 - era * 146097 = E
  have h0 : 0 ≤ E := by omega
  have h1 : E ≤ 146096 := by omega
  clear hera hE
  clear z
  have hlo := doy_lower E h0 h1
  have hhi := doy_upper E h0 h1
  set Y := (E - E/1460 + E/36524 - E/146096)/365 with hY
  set D := E - (365 * Y + Y / 4 - Y / 100) with hD
  have hDb : 0 ≤ D ∧ D ≤ 365 := by omega
  set MP := (5 * D + 2) / 153 with hMP
  have hMPb : 0 ≤ MP ∧ MP ≤ 11 := by omega
  split_ifs with hc1 <;> refine ⟨by omega, by omega, by omega, by omega⟩

/-- The day composition is affine in the day argument. -/
theorem daysFromCivil_day (y m d : Int) :
    daysFromCivil y m d = daysFromCivil y m 1 + (d - 1) := by
  simp only [daysFromCivil]
  split_ifs <;> omega

/-- The modelled `timegm` inverts the modelled `gmtime_r` decomposition on
every timestamp: composing a decomposed `struct tm` back yields the original
seconds value. -/
theorem timegmSpec_gmtimeSpec (t : Int) : timegmSpec (gmtimeSpec t) = t := by
  have hb := civilFromDays_bounds (t / 86400)
  have hA := daysFromCivil_civilFromDays (t / 86400)
  rcases hcd : civilFromDays (t / 86400) with ⟨y, m, d⟩
  rw [hcd] at hb hA
  simp only at hb hA
  simp only [timegmSpec, gmtimeSpec, hcd]
  have h12a : (m - 1) / 12 = 0 := by omega
  have h12b : (m - 1) % 12 = m - 1 := by omega
  rw [h12a, h12b]
  have hy : y - 1900 + 1900 + 0 = y := by ring
  have hm1 : m - 1 + 1 = m := by ring
  rw [hy, hm1]
  rw [← daysFromCivil_day, hA]
  omega

/-- The `int32_t` cast is the identity on values inside the 32-bit range. -/
theorem int32Wrap_eq (x : Int) (h1 : -2147483648 ≤ x) (h2 : x ≤ 2147483647) :
    int32Wrap x = x := by
  simp only [int32Wrap]; omega

/-- C1 (counterexample): the round trip is not the identity on the instant
`{-1, 0}` — `chronos_from_utc` reports the computed timestamp `-1` as an
error, so `fromCivil(toCivil({-1,0}, UTC))` is not `{-1, 0}`. -/
theorem roundTrip_pre_epoch_fails : roundTrip (-1) 0 ≠ .ok (-1, 0) := by
  rw [show roundTrip (-1) 0 = .error "timegm failed" from rfl]
  simp

/-- C1 (amended): for every instant whose seconds value is not the error
sentinel `-1` and whose civil year fits in `int32_t` (which amply covers
[-100 years, +100 years] around the epoch), and any nanosecond count,
converting to UTC civil fields and back is the identity:
`fromCivil(toCivil(i, UTC)) = i`. -/
theorem roundTrip_id (s : Int) (ns : Nat) (hs : s ≠ -1)
    (hy : -2147483648 ≤ yearOf s ∧ yearOf s ≤ 2147483647) :
    roundTrip s ns = .ok (s, ns) := by
  have hb := civilFromDays_bounds (s / 86400)
  have hgm := timegmSpec_gmtimeSpec s
  rcases hcd : civilFromDays (s / 86400) with ⟨y, m, d⟩
  rw [hcd] at hb
  simp only at hb
  have hyv : yearOf s = y := by simp [yearOf, hcd]
  rw [hyv] at hy
  have hTm : gmtimeSpec s =
      { tm_year := y - 1900, tm_mon := m - 1, tm_mday := d,
        tm_hour := s % 86400 / 3600, tm_min := s % 86400 % 3600 / 60,
        tm_sec := s % 86400 % 60 } := by
    simp [gmtimeSpec, hcd]
  rw [hTm] at hgm
  simp only [roundTrip, chronos_to_utc, gmtime_r, hTm]
  have h1 : int32Wrap (y - 1900 + 1900) = y := by
    rw [int32Wrap_eq] <;> omega
  have h2 : uint8Wrap (m - 1 + 1) = m := by simp only [uint8Wrap]; omega
  have h3 : uint8Wrap d = d := by simp only [uint8Wrap]; omega
  have h4 : uint8Wrap (s % 86400 / 3600) = s % 86400 / 3600 := by
    simp only [uint8Wrap]; omega
  have h5 : uint8Wrap (s % 86400 % 3600 / 60) = s % 86400 % 3600 / 60 := by
    simp only [uint8Wrap]; omega
  have h6 : uint8Wrap (s % 86400 % 60) = s % 86400 % 60 := by
    simp only [uint8Wrap]; omega
  simp only [h1, h2, h3, h4, h5, h6, chronos_from_utc]
  rw [hgm]
  simp [hs]

/-- C1 (witness): the round trip is the identity at the concrete instant
`{86400, 999999999}`. -/
theorem roundTrip_id_witness : roundTrip 86400 999999999 = .ok (86400, 999999999) :=
  roundTrip_id 86400 999999999 (by decide) (by decide)

/-- C2 (counterexample): the inverse conversion on 1969-12-31T23:59:59 UTC
does not return the instant `{-1, 0}`. -/
theorem from_utc_19691231_not_ok :
    chronos_from_utc 1969 12 31 23 59 59 0 ≠ .ok (-1, 0) := by
  rw [show chronos_from_utc 1969 12 31 23 59 59 0 = .error "timegm failed" from rfl]
  simp

/-- C2 (amended): the inverse conversion on the pre-epoch civil time
1969-12-31T23:59:59 UTC fails with the `timegm` error, because the computed
timestamp `-1` is treated as the error sentinel. -/
theorem from_utc_19691231_errors :
    chronos_from_utc 1969 12 31 23 59 59 0 = .error "timegm failed" := rfl

/-- C3: the forward conversion to UTC civil fields succeeds for every
seconds value and nanosecond count — its error branch is unreachable. -/
theorem to_utc_never_fails (s : Int) (ns : Nat) :
    ∃ dt, chronos_to_utc s ns = .ok dt :=
  ⟨_, rfl⟩

/-- C4: the offset calculator returns exactly the `int32_t` cast of the
specification's reference value — the difference of the two decompositions
reinterpreted as UTC civil times and converted back with §4.2's inverse —
and that reference value is the zone offset `c`, the signed number of
seconds with `local_instant = utc_instant + offset`. -/
theorem offset_refines (c now : Int) :
    chronos_get_timezone_offset c now = .ok (int32Wrap (offsetRefSpec c now)) ∧
    offsetRefSpec c now = c := by
  constructor
  · simp only [chronos_get_timezone_offset, localtimeConst, gmtime_r, mktimeConst,
      offsetRefSpec]
    rw [show ∀ A B : Int, A - c - (B - c) = A - B from fun A B => by ring]
  · simp only [offsetRefSpec, timegmSpec_gmtimeSpec]
    ring

/-- C5: the instant of 2024-02-29T00:00:00Z converts forward to
February 29 2024; the nonexistent civil date 2023-02-29 is normalized by the
inverse conversion to the instant of 2023-03-01T00:00:00Z, whose forward
conversion is March 1 2023 (not February 29). -/
theorem leap_year_conversions :
    chronos_to_utc 1709164800 0 =
      .ok { year := 2024, month := 2, day := 29, hour := 0, minute := 0,
            second := 0, nanosecond := 0 } ∧
    chronos_from_utc 2023 2 29 0 0 0 0 = .ok (1677628800, 0) ∧
    chronos_to_utc 1677628800 0 =
      .ok { year := 2023, month := 3, day := 1, hour := 0, minute := 0,
            second := 0, nanosecond := 0 } :=
  ⟨rfl, rfl, rfl⟩

/-- C6: the epoch boundary — `toCivil({0,0}, UTC)` is 1970-01-01T00:00:00
with zero nanoseconds, and `fromCivil({1970,1,1,0,0,0,0})` is `{0, 0}`. -/
theorem epoch_boundary :
    chronos_to_utc 0 0 =
      .ok { year := 1970, month := 1, day := 1, hour := 0, minute := 0,
            second := 0, nanosecond := 0 } ∧
    chronos_from_utc 1970 1 1 0 0 0 0 = .ok (0, 0) :=
  ⟨rfl, rfl⟩

/-- C7: nanosecond preservation — for every seconds value and every
nanosecond count, the forward conversion succeeds and its nanosecond field
is the input nanosecond count, independent of the seconds value. -/
theorem nanosecond_preserved (s : Int) (ns : Nat) :
    ∃ dt, chronos_to_utc s ns = .ok dt ∧ dt.nanosecond = ns :=
  ⟨_, rfl, rfl⟩

/-- C8: atomicity of failure — each operation (clock read, forward
conversion UTC or local, inverse conversion, offset computation) either
returns a complete result value or a tagged error with a message, for all
inputs and all resolver outcomes. -/
theorem ops_atomic :
    ∀ (clk : Option (Int × Nat)) (loc : Int → Option Tm) (c now s : Int) (ns : Nat)
      (y mo d h mi se : Int),
    ((∃ v, chronos_now clk = .ok v) ∨ ∃ e, chronos_now clk = .error e) ∧
    ((∃ v, chronos_to_utc s ns = .ok v) ∨ ∃ e, chronos_to_utc s ns = .error e) ∧
    ((∃ v, chronos_to_local loc s ns = .ok v) ∨ ∃ e, chronos_to_local loc s ns = .error e) ∧
    ((∃ v, chronos_from_utc y mo d h mi se ns = .ok v) ∨
      ∃ e, chronos_from_utc y mo d h mi se ns = .error e) ∧
    ((∃ v, chronos_get_timezone_offset c now = .ok v) ∨
      ∃ e, chronos_get_timezone_offset c now = .error e) := by
  intro clk loc c now s ns y mo d h mi se
  refine ⟨?_, ?_, ?_, ?_, ?_⟩
  · cases clk <;> [right; left] <;> exact ⟨_, rfl⟩
  · left; exact ⟨_, rfl⟩
  · rcases hl : loc s with _ | tm
    · right
      refine ⟨"localtime_r failed", ?_⟩
      simp [chronos_to_local, hl]
    · left
      refine ⟨{ year := int32Wrap (tm.tm_year + 1900), month := uint8Wrap (tm.tm_mon + 1),
                day := uint8Wrap tm.tm_mday, hour := uint8Wrap tm.tm_hour,
                minute := uint8Wrap tm.tm_min, second := uint8Wrap tm.tm_sec,
                nanosecond := ns }, ?_⟩
      simp [chronos_to_local, hl]
  · simp only [chronos_from_utc]
    split_ifs <;> [right; left] <;> exact ⟨_, rfl⟩
  · left; exact ⟨_, rfl⟩

/-- C9: the inverse conversion never rejects out-of-range calendar fields as
such — it fails exactly when the timestamp computed by the (normalizing)
`timegm` is `-1`; month 13 is carried over into January of the next year,
and the one valid instant with timestamp `-1` (1969-12-31T23:59:59Z, as the
decomposition of `-1` confirms) is reported as an error. -/
theorem from_utc_failure_characterization :
    (∀ (y mo d h mi s : Int) (ns : Nat),
      chronos_from_utc y mo d h mi s ns = .error "timegm failed" ↔
        timegmSpec { tm_year := y - 1900, tm_mon := mo - 1, tm_mday := d,
                     tm_hour := h, tm_min := mi, tm_sec := s } = -1) ∧
    chronos_from_utc 2023 13 1 0 0 0 0 = .ok (1704067200, 0) ∧
    chronos_from_utc 1969 12 31 23 59 59 0 = .error "timegm failed" ∧
    gmtimeSpec (-1) = { tm_year := 69, tm_mon := 11, tm_mday := 31,
                        tm_hour := 23, tm_min := 59, tm_sec := 59 } := by
  refine ⟨?_, rfl, rfl, rfl⟩
  intro y mo d h mi s ns
  simp only [chronos_from_utc]
  split_ifs with ht <;> simp [ht]

/-- C10: no operation enforces the nanosecond invariant — the inverse
conversion succeeds on the out-of-range nanosecond count `1000000000` and
returns it unchanged, the forward conversion passes it through to the civil
result, and in general every successful inverse conversion returns its
nanosecond argument unmodified. -/
theorem nanos_unchecked :
    chronos_from_utc 1970 1 1 0 0 0 1000000000 = .ok (0, 1000000000) ∧
    chronos_to_utc 0 1000000000 =
      .ok { year := 1970, month := 1, day := 1, hour := 0, minute := 0,
            second := 0, nanosecond := 1000000000 } ∧
    ∀ (y mo d h mi se : Int) (ns : Nat) (p : Int × Nat),
      chronos_from_utc y mo d h mi se ns = .ok p → p.2 = ns := by
  refine ⟨rfl, rfl, ?_⟩
  intro y mo d h mi se ns p hp
  simp only [chronos_from_utc] at hp
  split_ifs at hp with ht
  cases hp
  rfl

/-- C10 (witness): the general pass-through conjunct applied at the concrete
out-of-range input. -/
theorem nanos_unchecked_witness : ((0 : Int), (1000000000 : Nat)).2 = 1000000000 :=
  nanos_unchecked.2.2 1970 1 1 0 0 0 1000000000 (0, 1000000000) rfl
